import Mathlib

/-!
Shallow embedding of the query-orchestration backend in `src/main.py`
(FastAPI app "betabot"): the `POST /ask` endpoint (`ask_endpoint`), the
orchestrator `get_ai_response`, the retrieval wrapper
`search_nigerian_laws` and the analytics wrapper `get_economic_context`.

The three hosted collaborators (Vertex AI generation, Discovery Engine
search, BigQuery) are opaque external services; they are modelled as
oracle fields of a `Collaborators` record, together with the module-level
client/credential globals (`model`, `bq_client`, `my_credentials`) that
the code tests for truthiness before calling out.  Each vendor search
result is modelled by its `derivedStructData` dictionary (`MessageToDict`
of the protobuf document), with the optional nested fields the code
inspects.  Python exceptions raised by a collaborator call are modelled
with `Except`; the BigQuery float formatting (`f"{value:.2f}"`) is
abstracted by letting each row carry its already-rendered two-decimal
value string, since no logic in the file inspects the number itself.
-/

/-- One retrieved evidence item, as appended by `search_nigerian_laws`
(line 171: `{"source": title, "content": content}`) and as the `SourceDoc`
pydantic response model (lines 91-93). -/
structure SourceDoc where
  source : String
  content : String
deriving DecidableEq, Repr

/-- One entry of an `extractive_answers` / `extractiveAnswers` /
`extractive_segments` list: the code reads entry `.get("content", "")`. -/
structure ExtractiveEntry where
  content : Option String
deriving DecidableEq, Repr

/-- One entry of a `snippets` list: the code reads entry `.get("snippet", "")`. -/
structure SnippetEntry where
  snippet : Option String
deriving DecidableEq, Repr

/-- The `derivedStructData` dictionary of one vendor search result
(`MessageToDict(result.document._pb).get("derivedStructData", {})`),
restricted to the keys `search_nigerian_laws` inspects.  `none` models an
absent key. -/
structure DerivedData where
  title : Option String
  link : Option String
  extractive_answers : Option (List ExtractiveEntry)
  extractiveAnswers : Option (List ExtractiveEntry)
  snippets : Option (List SnippetEntry)
  extractive_segments : Option (List ExtractiveEntry)
deriving DecidableEq, Repr

/-- One row of the fixed BigQuery indicator query (indicator_name, value,
year).  `value2f` is the `f"{row.value:.2f}"` rendering of the float value;
the orchestration logic never inspects the number, only splices this
rendering into a line of text, so the float itself is abstracted away. -/
structure EconRow where
  indicator_name : String
  value2f : String
  year : Nat
deriving DecidableEq, Repr

/-- An outbound collaborator call made during one request: retrieval
(Discovery Engine search, with the query and the requested `page_size`),
analytics (the fixed BigQuery query), or generation (Gemini, with the
assembled prompt). -/
inductive CallEvent where
  | retrievalCall (query : String) (pageSize : Nat)
  | analyticsCall
  | generationCall (prompt : String)
deriving DecidableEq, Repr

/-- The module-level globals and the three opaque collaborators.
`credentialsOk`, `modelOk`, `bqOk` model the truthiness of
`my_credentials`, `model` and `bq_client` (each is `None` when its
initialization failed).  `searchResp query k` is the Discovery Engine
search call issued with `page_size = k`; `bqRows` is the fixed
query-independent BigQuery call; `generate prompt` is
`model.generate_content(prompt).text`.  A `.error` value models the call
raising a Python exception (for `generate`, carrying `str(e)`). -/
structure Collaborators where
  credentialsOk : Bool
  modelOk : Bool
  bqOk : Bool
  searchResp : String → Nat → Except Unit (List DerivedData)
  bqRows : Except Unit (List EconRow)
  generate : String → Except String String

/-- Python truthiness of an optional string: `None` and `""` are falsy. -/
def truthyStr : Option String → Bool
  | none => false
  | some s => s ≠ ""

/-- Python `a or b` on two optional strings: yields `b` whenever `a` is falsy. -/
def pyOr (a b : Option String) : Option String :=
  if truthyStr a then a else b

/-- The `QueryRequest` pydantic model (lines 79-88): optional `query`,
optional `question` alias, `mode` defaulting to `"tax"`. -/
structure QueryRequest where
  query : Option String
  question : Option String
  mode : String
deriving DecidableEq, Repr

/-- The `mode='before'` validator of `QueryRequest`: if `query` is falsy
and `question` is truthy, copy `question` into `query`. -/
def check_query_or_question (r : QueryRequest) : QueryRequest :=
  if !truthyStr r.query && truthyStr r.question then { r with query := r.question } else r

/-- Python `"\n".replace` with a single-character pattern:
`content.replace("\n", " ")` maps each newline character to a space. -/
def pyReplaceNl (s : String) : String :=
  String.mk (s.data.map (fun ch => if ch = '\n' then ' ' else ch))

/-- Python `str.strip()`: drop leading and trailing whitespace characters. -/
def pyStrip (s : String) : String :=
  String.mk (((s.data.dropWhile Char.isWhitespace).reverse.dropWhile Char.isWhitespace).reverse)

/-- The cleanup applied to extracted content (line 170):
`content.replace("\n", " ").strip()`. -/
def cleanContent (s : String) : String :=
  pyStrip (pyReplaceNl s)

/-- Python `link.split("/")[-1]`: the final path segment of a link
(`str.split` always returns a non-empty list, so `[-1]` never raises). -/
def lastPathSegment (link : String) : String :=
  (link.splitOn "/").getLastD ""

/-- Title extraction for one result (lines 147-155): the truthy `title`
field, else the final path segment of a truthy `link`, else the constant
`"Official Document"`. -/
def extractTitle (d : DerivedData) : String :=
  if truthyStr d.title then d.title.getD ""
  else
    let link := d.link.getD ""
    if link ≠ "" then lastPathSegment link else "Official Document"

/-- Python `lst[0].get("content", "")` on an extractive list: raises
`IndexError` (modelled as `.error ()`) when the list is empty. -/
def headContentE : List ExtractiveEntry → Except Unit String
  | [] => .error ()
  | e :: _ => .ok (e.content.getD "")

/-- Python `lst[0].get("snippet", "")` on a snippets list: raises
`IndexError` (modelled as `.error ()`) when the list is empty. -/
def headSnippetE : List SnippetEntry → Except Unit String
  | [] => .error ()
  | e :: _ => .ok (e.snippet.getD "")

/-- Content extraction for one result (lines 157-166): check the key
variants in source order — `extractive_answers`, then `extractiveAnswers`,
then `snippets`, then `extractive_segments` — and read the first entry of
the first key present; an absent chain leaves `content = ""`. -/
def extractContent (d : DerivedData) : Except Unit String :=
  match d.extractive_answers with
  | some l => headContentE l
  | none =>
    match d.extractiveAnswers with
    | some l => headContentE l
    | none =>
      match d.snippets with
      | some l => headSnippetE l
      | none =>
        match d.extractive_segments with
        | some l => headContentE l
        | none => .ok ""

/-- Processing of one search result (lines 141-171): extract title and
content; when the content is truthy, clean it and emit the source record,
otherwise skip the result. -/
def processResult (d : DerivedData) : Except Unit (Option SourceDoc) :=
  match extractContent d with
  | .error u => .error u
  | .ok content =>
    if content ≠ "" then .ok (some { source := extractTitle d, content := cleanContent content })
    else .ok none

/-- The result loop of `search_nigerian_laws`: process each result in
order, collecting the emitted source records; the first raised exception
aborts the whole loop (it is caught by the function-level handler). -/
def processResults : List DerivedData → Except Unit (List SourceDoc)
  | [] => .ok []
  | d :: ds =>
    match processResult d with
    | .error u => .error u
    | .ok o =>
      match processResults ds with
      | .error u => .error u
      | .ok rest =>
        match o with
        | some doc => .ok (doc :: rest)
        | none => .ok rest

/-- `search_nigerian_laws` (lines 119-176): with no credentials return
`[]` immediately; otherwise issue the search with `page_size = 3` and
process the results, with any exception (from the call or from result
processing) caught and turned into `[]`.  The second component records
the outbound collaborator calls made. -/
def search_nigerian_laws (c : Collaborators) (query : String) :
    List SourceDoc × List CallEvent :=
  if !c.credentialsOk then ([], [])
  else
    match c.searchResp query 3 with
    | .error _ => ([], [.retrievalCall query 3])
    | .ok results =>
      match processResults results with
      | .error _ => ([], [.retrievalCall query 3])
      | .ok docs => (docs, [.retrievalCall query 3])

/-- One rendered stats line (line 113):
`f"- {row.indicator_name} ({row.year}): {row.value:.2f}%"`. -/
def formatRow (r : EconRow) : String :=
  "- " ++ r.indicator_name ++ " (" ++ toString r.year ++ "): " ++ r.value2f ++ "%"

/-- `get_economic_context` (lines 102-117): with no BigQuery client return
`""`; otherwise run the fixed indicator query (ordering and the LIMIT 3
are performed by the warehouse) and join the rendered lines with newlines,
with any exception caught and turned into `""`. -/
def get_economic_context (c : Collaborators) : String × List CallEvent :=
  if !c.bqOk then ("", [])
  else
    match c.bqRows with
    | .error _ => ("", [.analyticsCall])
    | .ok rows => (String.intercalate "\n" (rows.map formatRow), [.analyticsCall])

/-- The therapy-mode prompt (line 184). -/
def therapyPrompt (q : String) : String :=
  "You are BetaCare, a therapist. User: '" ++ q ++ "'. Be empathetic."

/-- One line of the RAG block (line 199):
`f"SOURCE {i+1} [{doc['source']}]: {doc['content']}\n\n"`. -/
def sourceLine (i : Nat) (d : SourceDoc) : String :=
  "SOURCE " ++ toString (i + 1) ++ " [" ++ d.source ++ "]: " ++ d.content ++ "\n\n"

/-- The fixed built-in fallback knowledge block substituted when retrieval
yields no items (line 201). -/
def fallbackBlock : String := "No specific document found."

/-- The RAG text block (lines 195-201): header plus one line per retrieved
source, or the fallback block when the list is empty. -/
def ragText (l : List SourceDoc) : String :=
  if l = [] then fallbackBlock
  else "OFFICIAL SOURCES:\n" ++ String.join (l.enum.map (fun p => sourceLine p.1 p.2))

/-- The hybrid tax-mode prompt f-string (lines 204-229), up to its first
interpolation. -/
def promptPart1 : String :=
  "\n    ROLE: You are 'BetaBot', a Strategic Business Advisor for Nigerian SMEs.\n    You are an expert in Tax Law, Business Strategy, and Financial Growth.\n\n    ECONOMIC CONTEXT:\n    "

/-- The hybrid prompt between the `econ_data` and `rag_text` interpolations. -/
def promptPart2 : String := "\n\n    "

/-- The hybrid prompt between the `rag_text` and `user_query` interpolations. -/
def promptPart3 : String := "\n\n    USER QUESTION: \""

/-- The hybrid prompt after the `user_query` interpolation. -/
def promptPart4 : String :=
  "\"\n\n    INSTRUCTIONS:\n    1. **CLASSIFY:** Is this a Tax/Legal question or a General Business question?\n    \n    2. **IF TAX/LEGAL:**\n       - Be precise. Cite the 'OFFICIAL DOCUMENTS' if available.\n       - Quote rates (7.5% VAT) and deadlines (21st).\n       - Keep it strict and compliant.\n\n    3. **IF GENERAL BUSINESS (e.g. \"How to scale?\", \"Marketing tips\"):**\n       - Be creative and strategic.\n       - Use the 'ECONOMIC CONTEXT' (Population/GDP) to give localized advice (e.g. \"Given Nigeria's population of 200M...\").\n       - Do NOT force tax laws into the answer unless relevant.\n\n    4. **TONE:** Professional, concise, and encouraging. Max 150 words.\n    "

/-- The assembled hybrid prompt (lines 204-229) as a function of the
interpolated economic context, RAG block and user query. -/
def hybridPrompt (econ rag q : String) : String :=
  promptPart1 ++ econ ++ promptPart2 ++ rag ++ promptPart3 ++ q ++ promptPart4

/-- The value `get_ai_response` returns: the source function has
inconsistent arity — some paths return the pair `(answer, sources)` and
the successful tax path returns the triple `(answer, sources, econ_data)`. -/
inductive PyRet where
  | two (answer : String) (sources : List SourceDoc)
  | three (answer : String) (sources : List SourceDoc) (econ : String)
deriving DecidableEq, Repr

/-- `get_ai_response` (lines 179-235): offline check, therapy branch
(empathetic prompt straight from the raw query, bare `except` yielding
`"I am listening."`), and the tax/business branch (retrieval, analytics,
RAG block, hybrid prompt, generation with exceptions rendered as
`"Thinking Error: ..."`).  The second component is the trace of outbound
collaborator calls. -/
def get_ai_response (c : Collaborators) (user_query mode : String) :
    PyRet × List CallEvent :=
  if !c.modelOk then (.two "AI System Offline." [], [])
  else if mode = "therapy" then
    match c.generate (therapyPrompt user_query) with
    | .ok t => (.two t [], [.generationCall (therapyPrompt user_query)])
    | .error _ => (.two "I am listening." [], [.generationCall (therapyPrompt user_query)])
  else
    let sr := search_nigerian_laws c user_query
    let er := get_economic_context c
    let prompt := hybridPrompt er.1 (ragText sr.1) user_query
    match c.generate prompt with
    | .ok t => (.three t sr.1 er.1, sr.2 ++ er.2 ++ [.generationCall prompt])
    | .error e =>
      (.two ("Thinking Error: " ++ e) [], sr.2 ++ er.2 ++ [.generationCall prompt])

/-- The prompt the tax/business branch of `get_ai_response` assembles and
hands to the generation collaborator. -/
def assembledTaxPrompt (c : Collaborators) (q : String) : String :=
  hybridPrompt (get_economic_context c).1 (ragText (search_nigerian_laws c q).1) q

/-- The HTTP outcome of `ask_endpoint`: a 200 `APIResponse` body, the 400
`HTTPException`, or an uncaught Python exception (FastAPI turns it into a
500 response). -/
inductive HttpResult where
  | ok (answer : String) (sources : List SourceDoc) (economic_data : String)
  | clientError (status : Nat) (detail : String)
  | serverError (detail : String)
deriving DecidableEq, Repr

/-- The uncaught exception raised by `answer, sources, econ_data = ...`
when `get_ai_response` returned a pair. -/
def unpackErrorMsg : String :=
  "ValueError: not enough values to unpack (expected 3, got 2)"

/-- `ask_endpoint` (lines 238-250): run the pydantic validator, resolve
`req.query or req.question`, reject a falsy query with a 400, call
`get_ai_response` and unpack three values from its result — which raises
when the orchestrator returned a pair. -/
def ask_endpoint (c : Collaborators) (rawReq : QueryRequest) :
    HttpResult × List CallEvent :=
  let req := check_query_or_question rawReq
  let final_query := pyOr req.query req.question
  if !truthyStr final_query then (.clientError 400 "Query required", [])
  else
    match get_ai_response c (final_query.getD "") req.mode with
    | (.three a s e, log) => (.ok a s e, log)
    | (.two _ _, log) => (.serverError unpackErrorMsg, log)

/-- The query text `ask_endpoint` resolves from a raw request: the
pydantic validator runs first, then `req.query or req.question`. -/
def resolvedQuery (r : QueryRequest) : Option String :=
  pyOr (check_query_or_question r).query (check_query_or_question r).question

/-- Whether a call event is a retrieval-collaborator call. -/
def isRetrievalCall : CallEvent → Bool
  | .retrievalCall _ _ => true
  | _ => false

/-- Whether a call event is an analytics-collaborator call. -/
def isAnalyticsCall : CallEvent → Bool
  | .analyticsCall => true
  | _ => false

/-- The evidence list of an HTTP outcome (empty for error outcomes). -/
def httpSources : HttpResult → List SourceDoc
  | .ok _ s _ => s
  | _ => []

/-- The source record one search result contributes, if any (its content
is truthy), assuming its processing does not raise. -/
def docOf (d : DerivedData) : Option SourceDoc :=
  match processResult d with
  | .ok o => o
  | .error _ => none

/-- Well-formedness of a vendor result dictionary, as the proto3 JSON
mapping guarantees it: `MessageToDict` omits fields holding their default
value, so a key that is present holds a non-empty string or a non-empty
list. -/
def WfDerived (d : DerivedData) : Prop :=
  d.title ≠ some "" ∧ d.link ≠ some "" ∧
  d.extractive_answers ≠ some [] ∧ d.extractiveAnswers ≠ some [] ∧
  d.snippets ≠ some [] ∧ d.extractive_segments ≠ some []

instance (d : DerivedData) : Decidable (WfDerived d) := by
  unfold WfDerived; infer_instance

/-- Modelled from the spec's words (design note on the fallback chain):
the ordered list of field extractors, in the priority order the spec
states — `extractive_answers`, `extractiveAnswers`, `snippets`,
`extractive_segments` — each yielding `some` exactly when its field is
present. -/
def contentExtractors : List (DerivedData → Option (Except Unit String)) :=
  [fun d => d.extractive_answers.map headContentE,
   fun d => d.extractiveAnswers.map headContentE,
   fun d => d.snippets.map headSnippetE,
   fun d => d.extractive_segments.map headContentE]

/-- Modelled from the spec's words: try the extractors in priority order
and return the first match (the chain-of-responsibility formulation the
spec asks the fallback cascade to be equivalent to). -/
def specContentChain (d : DerivedData) : Except Unit String :=
  ((contentExtractors.filterMap (fun f => f d)).head?).getD (.ok "")

/-- Modelled from the spec's words: the evidence label is taken from
`title` if present, else the final path segment of `link`, else the
constant `"Official Document"`. -/
def specLabel (d : DerivedData) : String :=
  match d.title with
  | some t => t
  | none =>
    match d.link with
    | some l => lastPathSegment l
    | none => "Official Document"

/-- Substring containment: `sub` occurs verbatim inside `s`. -/
def containsSub (s sub : String) : Prop :=
  ∃ a b, s = a ++ (sub ++ b)

/-- A vendor result with no title, a storage link, and only a `snippets`
field — exercising the later links of both fallback chains. -/
def sampleSnippetRecord : DerivedData :=
  ⟨none, some "gs://laws/finance_act_2023.pdf", none, none,
   some [⟨some "PAYE is due by the 10th."⟩], none⟩

/-- Deterministic healthy stub collaborators: retrieval finds nothing,
analytics returns one indicator row, generation answers. -/
def demoStubs : Collaborators :=
  { credentialsOk := true, modelOk := true, bqOk := true,
    searchResp := fun _ _ => .ok [],
    bqRows := .ok [{ indicator_name := "GDP growth (annual %)", value2f := "2.86", year := 2023 }],
    generate := fun _ => .ok "Answer." }

/-- A second run against stubs with identical behavior to `demoStubs`. -/
def rerunStubs : Collaborators :=
  { credentialsOk := true, modelOk := true, bqOk := true,
    searchResp := fun _ _ => .ok [],
    bqRows := .ok [{ indicator_name := "GDP growth (annual %)", value2f := "2.86", year := 2023 }],
    generate := fun _ => .ok "Answer." }

/-- Stubs simulating every collaborator failing: no retrieval credentials,
no analytics client, and a generation call that raises a quota error. -/
def allFailStubs : Collaborators :=
  { credentialsOk := false, modelOk := true, bqOk := false,
    searchResp := fun _ _ => .error (), bqRows := .error (),
    generate := fun _ => .error "499 quota exceeded" }

/-- Five well-formed vendor results, each carrying an extractive answer. -/
def c5Records : List DerivedData :=
  [⟨some "Doc 1", none, some [⟨some "content one"⟩], none, none, none⟩,
   ⟨some "Doc 2", none, some [⟨some "content two"⟩], none, none, none⟩,
   ⟨some "Doc 3", none, some [⟨some "content three"⟩], none, none, none⟩,
   ⟨some "Doc 4", none, some [⟨some "content four"⟩], none, none, none⟩,
   ⟨some "Doc 5", none, some [⟨some "content five"⟩], none, none, none⟩]

/-- Stubs whose retrieval collaborator ignores the requested result bound
and returns five items. -/
def c5Stubs : Collaborators :=
  { credentialsOk := true, modelOk := true, bqOk := false,
    searchResp := fun _ _ => .ok c5Records, bqRows := .error (),
    generate := fun _ => .ok "Answer." }

/-- The single vendor result of the spec's worked example: title
`"Finance Act 2023"`, extractive answer `"VAT due 21st"`. -/
def vatRecord : DerivedData :=
  ⟨some "Finance Act 2023", none, some [⟨some "VAT due 21st"⟩], none, none, none⟩

/-- Stubs for the spec's worked example: retrieval returns `vatRecord`
for the example query, analytics is offline, generation answers. -/
def vatStubs : Collaborators :=
  { credentialsOk := true, modelOk := true, bqOk := false,
    searchResp := fun q k =>
      if q = "What is the VAT deadline?" && k = 3 then .ok [vatRecord] else .ok [],
    bqRows := .error (), generate := fun _ => .ok "The VAT deadline is the 21st." }

/-- The worked example's request body. -/
def vatReq : QueryRequest := ⟨some "What is the VAT deadline?", none, "tax"⟩

/-- The prompt assembled for the worked example. -/
def vatPrompt : String := assembledTaxPrompt vatStubs "What is the VAT deadline?"

/-! ## Helper lemmas -/

/-- String append acts as list append on the underlying character data. -/
theorem strData_append (a b : String) : (a ++ b).data = a.data ++ b.data := by
  cases a; cases b; rfl

/-- On a well-formed result, the content-extraction cascade never raises. -/
theorem extractContent_ok_of_wf (d : DerivedData) (h : WfDerived d) :
    ∃ s, extractContent d = .ok s := by
  obtain ⟨t, lk, ea, eA, sn, es⟩ := d
  obtain ⟨-, -, h1, h2, h3, h4⟩ := h
  cases ea with
  | some l =>
    cases l with
    | nil => exact absurd rfl h1
    | cons e l => exact ⟨e.content.getD "", rfl⟩
  | none =>
    cases eA with
    | some l =>
      cases l with
      | nil => exact absurd rfl h2
      | cons e l => exact ⟨e.content.getD "", rfl⟩
    | none =>
      cases sn with
      | some l =>
        cases l with
        | nil => exact absurd rfl h3
        | cons e l => exact ⟨e.snippet.getD "", rfl⟩
      | none =>
        cases es with
        | some l =>
          cases l with
          | nil => exact absurd rfl h4
          | cons e l => exact ⟨e.content.getD "", rfl⟩
        | none => exact ⟨"", rfl⟩

/-- On a well-formed result, processing never raises and emits `docOf`. -/
theorem processResult_ok_of_wf (d : DerivedData) (h : WfDerived d) :
    processResult d = .ok (docOf d) := by
  obtain ⟨s, hs⟩ := extractContent_ok_of_wf d h
  by_cases hne : s = ""
  · subst hne; simp [processResult, docOf, hs]
  · simp [processResult, docOf, hs, hne]

/-- On well-formed results, the result loop never raises and collects
exactly the per-result records, in their original relative order. -/
theorem processResults_ok_of_wf (l : List DerivedData) (h : ∀ d ∈ l, WfDerived d) :
    processResults l = .ok (l.filterMap docOf) := by
  induction l with
  | nil => rfl
  | cons d ds ih =>
    have hd := h d (List.mem_cons_self d ds)
    have ihds := ih (fun x hx => h x (List.mem_cons_of_mem d hx))
    cases hdoc : docOf d <;>
      simp [processResults, processResult_ok_of_wf d hd, ihds, List.filterMap_cons, hdoc]

/-! ## Claim theorems -/

/-- Claim C3: a request whose query text is empty or missing (both the
`query` field and its `question` alias are falsy) is answered with the
400 client error, and no collaborator call — in particular no generation
call — is attempted. -/
theorem empty_query_rejected (c : Collaborators) (r : QueryRequest)
    (hq : truthyStr r.query = false) (hn : truthyStr r.question = false) :
    ask_endpoint c r = (.clientError 400 "Query required", []) := by
  simp [ask_endpoint, check_query_or_question, pyOr, hq, hn]

/-- Witness for C3: the concrete request with `query = ""` and no
`question` alias is rejected with 400 and an empty call trace. -/
theorem empty_query_rejected_witness :
    ask_endpoint demoStubs ⟨some "", none, "tax"⟩ = (.clientError 400 "Query required", []) :=
  empty_query_rejected demoStubs ⟨some "", none, "tax"⟩ (by decide) (by decide)

/-- Claim C4: a therapy-mode run makes no retrieval call and no analytics
call (their counts in the call trace are 0), and any generation call it
makes carries the prompt built directly from the raw query text. -/
theorem therapy_skips_retrieval_and_analytics (c : Collaborators) (q : String) :
    ((get_ai_response c q "therapy").2.countP (fun e => isRetrievalCall e) = 0)
  ∧ ((get_ai_response c q "therapy").2.countP (fun e => isAnalyticsCall e) = 0)
  ∧ (∀ p, CallEvent.generationCall p ∈ (get_ai_response c q "therapy").2 →
      p = therapyPrompt q) := by
  cases hm : c.modelOk
  · simp [get_ai_response, hm]
  · cases hg : c.generate (therapyPrompt q) <;>
      simp [get_ai_response, hm, hg, isRetrievalCall, isAnalyticsCall]

/-- Witness for C4: on concrete stubs and a concrete therapy query, the
only call made is a generation call, and its prompt is the empathetic
prompt over the raw query. -/
theorem therapy_skips_retrieval_and_analytics_witness :
    (get_ai_response demoStubs "I feel anxious" "therapy").2.countP
      (fun e => isRetrievalCall e) = 0
  ∧ "You are BetaCare, a therapist. User: 'I feel anxious'. Be empathetic." =
      therapyPrompt "I feel anxious" :=
  ⟨(therapy_skips_retrieval_and_analytics demoStubs "I feel anxious").1,
   ((therapy_skips_retrieval_and_analytics demoStubs "I feel anxious").2.2
     "You are BetaCare, a therapist. User: 'I feel anxious'. Be empathetic."
     (by decide)).symm⟩

/-- Claim C8: an unavailable or failing retrieval collaborator is
recovered as the empty evidence list, an unavailable or failing analytics
collaborator as the empty context string, and the tax-mode request still
succeeds with the degraded evidence and context. -/
theorem collaborator_failures_recovered (c : Collaborators) (q t : String) :
    (c.credentialsOk = false → search_nigerian_laws c q = ([], []))
  ∧ (c.credentialsOk = true → c.searchResp q 3 = .error () →
      search_nigerian_laws c q = ([], [.retrievalCall q 3]))
  ∧ (c.bqOk = false → get_economic_context c = ("", []))
  ∧ (c.bqOk = true → c.bqRows = .error () → get_economic_context c = ("", [.analyticsCall]))
  ∧ (c.modelOk = true → c.generate (assembledTaxPrompt c q) = .ok t →
      (get_ai_response c q "tax").1 =
        .three t (search_nigerian_laws c q).1 (get_economic_context c).1) := by
  refine ⟨fun h => ?_, fun h h2 => ?_, fun h => ?_, fun h h2 => ?_, fun h h2 => ?_⟩
  · simp [search_nigerian_laws, h]
  · simp [search_nigerian_laws, h, h2]
  · simp [get_economic_context, h]
  · simp [get_economic_context, h, h2]
  · simp only [assembledTaxPrompt] at h2
    simp [get_ai_response, h, h2]

/-- Witness for C8: with `allFailStubs` (no credentials, no analytics
client), retrieval recovers to the empty list with no outbound call and
analytics recovers to the empty string with no outbound call. -/
theorem collaborator_failures_recovered_witness :
    search_nigerian_laws allFailStubs "What is VAT?" = ([], [])
  ∧ get_economic_context allFailStubs = ("", []) :=
  ⟨(collaborator_failures_recovered allFailStubs "What is VAT?" "x").1 rfl,
   (collaborator_failures_recovered allFailStubs "What is VAT?" "x").2.2.1 rfl⟩

/-- Claim C1 (code bug): at the failing input — a well-formed tax-mode
request with every collaborator failing — the orchestrator does produce
the caught apology answer internally, but returns it as a pair, so the
endpoint's three-value unpack raises and the request ends as a 500
server error instead of the HTTP 200 the spec states. -/
theorem all_collaborators_fail_yields_500 :
    (get_ai_response allFailStubs "What is VAT?" "tax").1 =
      .two "Thinking Error: 499 quota exceeded" []
  ∧ (ask_endpoint allFailStubs ⟨some "What is VAT?", none, "tax"⟩).1 =
      .serverError unpackErrorMsg :=
  ⟨by decide, by decide⟩

/-- Claim C5 (counterexample): a retrieval collaborator that returns five
result items yields a response with five evidence items — the claimed
truncation to at most three does not happen in the code, which relies
solely on the `page_size = 3` bound it sends with the request. -/
theorem five_results_not_truncated :
    c5Stubs.searchResp "How do I register for CIT?" 3 = .ok c5Records
  ∧ c5Records.length = 5
  ∧ ¬ (httpSources
        (ask_endpoint c5Stubs ⟨some "How do I register for CIT?", none, "tax"⟩).1).length ≤ 3 :=
  ⟨rfl, rfl, by decide⟩

/-- Claim C5 (amended): the retrieval request itself carries the result
bound 3; the code does not truncate, so the evidence is exactly the
order-preserving `filterMap` of whatever the collaborator returned, and
whenever the collaborator honors the bound (at most 3 items) the
response carries at most 3 evidence items. -/
theorem retrieval_bound_in_request (c : Collaborators) (q : String)
    (records : List DerivedData)
    (hcred : c.credentialsOk = true)
    (hresp : c.searchResp q 3 = .ok records)
    (hwf : ∀ d ∈ records, WfDerived d) :
    search_nigerian_laws c q = (records.filterMap docOf, [.retrievalCall q 3])
  ∧ (records.filterMap docOf).length ≤ records.length
  ∧ (records.length ≤ 3 → (search_nigerian_laws c q).1.length ≤ 3) := by
  have hp := processResults_ok_of_wf records hwf
  have h1 : search_nigerian_laws c q = (records.filterMap docOf, [.retrievalCall q 3]) := by
    simp [search_nigerian_laws, hcred, hresp, hp]
  refine ⟨h1, List.length_filterMap_le docOf records, fun hb => ?_⟩
  rw [h1]
  exact le_trans (List.length_filterMap_le docOf records) hb

/-- Witness for the amended C5: on the five-item stub the search result
is the five processed records in order, and the bound implication holds
vacuously-of-fact at this input via the theorem. -/
theorem retrieval_bound_in_request_witness :
    search_nigerian_laws c5Stubs "How do I register for CIT?" =
      (c5Records.filterMap docOf, [.retrievalCall "How do I register for CIT?" 3])
  ∧ (c5Records.filterMap docOf).length ≤ c5Records.length :=
  ⟨(retrieval_bound_in_request c5Stubs "How do I register for CIT?" c5Records
      rfl rfl (by decide)).1,
   (retrieval_bound_in_request c5Stubs "How do I register for CIT?" c5Records
      rfl rfl (by decide)).2.1⟩

/-- String append is associative (via the underlying character lists). -/
theorem strAppend_assoc (a b c : String) : (a ++ b) ++ c = a ++ (b ++ c) := by
  cases a; cases b; cases c
  show String.mk _ = String.mk _
  rw [List.append_assoc]

/-- Claim C2: the offline path, both therapy paths and the
generation-exception path of `get_ai_response` return a pair
`(answer, [])`; the endpoint's unconditional three-value unpack turns
any pair into the raised `ValueError` (a 500, not an `APIResponse`);
and a triple arises only from the successful tax-mode path. -/
theorem arity_mismatch_two_tuple_paths (c : Collaborators) (q m : String) :
    (c.modelOk = false → (get_ai_response c q m).1 = .two "AI System Offline." [])
  ∧ (c.modelOk = true → ∀ t, c.generate (therapyPrompt q) = .ok t →
      (get_ai_response c q "therapy").1 = .two t [])
  ∧ (c.modelOk = true → ∀ e, c.generate (therapyPrompt q) = .error e →
      (get_ai_response c q "therapy").1 = .two "I am listening." [])
  ∧ (c.modelOk = true → m ≠ "therapy" → ∀ e, c.generate (assembledTaxPrompt c q) = .error e →
      (get_ai_response c q m).1 = .two ("Thinking Error: " ++ e) [])
  ∧ (∀ a s es, (get_ai_response c q m).1 = .three a s es →
      c.modelOk = true ∧ m ≠ "therapy" ∧ c.generate (assembledTaxPrompt c q) = .ok a)
  ∧ (∀ r : QueryRequest, truthyStr (resolvedQuery r) = true → ∀ a s,
      (get_ai_response c ((resolvedQuery r).getD "")
        (check_query_or_question r).mode).1 = .two a s →
      (ask_endpoint c r).1 = .serverError unpackErrorMsg) := by
  refine ⟨fun hm => ?_, fun hm t hg => ?_, fun hm e hg => ?_, fun hm hne e hg => ?_,
    fun a s es h => ?_, fun r hr a s h => ?_⟩
  · simp [get_ai_response, hm]
  · simp [get_ai_response, hm, hg]
  · simp [get_ai_response, hm, hg]
  · simp only [assembledTaxPrompt] at hg
    simp [get_ai_response, hm, hne, hg]
  · by_cases hm : c.modelOk = true
    · by_cases hth : m = "therapy"
      · subst hth
        rcases hg : c.generate (therapyPrompt q) with e | t <;>
          simp [get_ai_response, hm, hg] at h
      · rcases hg : c.generate (assembledTaxPrompt c q) with e | t
        · have hg2 := hg
          simp only [assembledTaxPrompt] at hg2
          simp [get_ai_response, hm, hth, hg2] at h
        · have hg2 := hg
          simp only [assembledTaxPrompt] at hg2
          simp [get_ai_response, hm, hth, hg2] at h
          obtain ⟨h1, -, -⟩ := h
          subst h1
          exact ⟨hm, hth, rfl⟩
    · rw [Bool.not_eq_true] at hm
      simp [get_ai_response, hm] at h
  · simp only [resolvedQuery] at hr h
    rcases hga : get_ai_response c
        ((pyOr (check_query_or_question r).query (check_query_or_question r).question).getD "")
        (check_query_or_question r).mode with ⟨ret, log⟩
    rw [hga] at h
    simp only at h
    subst h
    simp [ask_endpoint, hr, hga]

/-- Witness for C2: with the failing stubs, a therapy request produces
the pair `("I am listening.", [])` and the endpoint's unpack turns it
into the 500 server error. -/
theorem arity_mismatch_two_tuple_paths_witness :
    (get_ai_response allFailStubs "hello" "therapy").1 = .two "I am listening." []
  ∧ (ask_endpoint allFailStubs ⟨some "hello", none, "therapy"⟩).1 =
      .serverError unpackErrorMsg :=
  ⟨(arity_mismatch_two_tuple_paths allFailStubs "hello" "therapy").2.2.1 rfl
      "499 quota exceeded" rfl,
   (arity_mismatch_two_tuple_paths allFailStubs "hello" "therapy").2.2.2.2.2
      ⟨some "hello", none, "therapy"⟩ (by decide) "I am listening." []
      ((arity_mismatch_two_tuple_paths allFailStubs "hello" "therapy").2.2.1 rfl
        "499 quota exceeded" rfl)⟩

/-- Claim C6: when the retrieval collaborator returns zero items on the
tax path, the evidence list is empty, the fixed fallback block replaces
the RAG text, the assembled prompt sent to generation contains the
fallback verbatim, and the response carries the empty evidence list. -/
theorem zero_results_fallback (c : Collaborators) (q t : String)
    (hm : c.modelOk = true)
    (hcred : c.credentialsOk = true)
    (hresp : c.searchResp q 3 = .ok [])
    (hgen : c.generate (assembledTaxPrompt c q) = .ok t) :
    search_nigerian_laws c q = ([], [.retrievalCall q 3])
  ∧ ragText (search_nigerian_laws c q).1 = fallbackBlock
  ∧ containsSub (assembledTaxPrompt c q) fallbackBlock
  ∧ (get_ai_response c q "tax").1 = .three t [] (get_economic_context c).1
  ∧ CallEvent.generationCall (assembledTaxPrompt c q) ∈ (get_ai_response c q "tax").2 := by
  have h1 : search_nigerian_laws c q = ([], [.retrievalCall q 3]) := by
    simp [search_nigerian_laws, hcred, hresp, processResults]
  have hrag : ragText [] = fallbackBlock := rfl
  have h2 : ragText (search_nigerian_laws c q).1 = fallbackBlock := by
    rw [h1]; exact hrag
  have h3 : assembledTaxPrompt c q =
      promptPart1 ++ (get_economic_context c).1 ++ promptPart2 ++ fallbackBlock ++
        promptPart3 ++ q ++ promptPart4 := by
    simp only [assembledTaxPrompt, hybridPrompt, h1, hrag]
  have h4 : containsSub (assembledTaxPrompt c q) fallbackBlock := by
    refine ⟨promptPart1 ++ (get_economic_context c).1 ++ promptPart2,
            promptPart3 ++ q ++ promptPart4, ?_⟩
    rw [h3]
    simp [strAppend_assoc]
  have hgen2 := hgen
  simp only [assembledTaxPrompt, h1] at hgen2
  refine ⟨h1, h2, h4, ?_, ?_⟩
  · simp [get_ai_response, h1, hm, hgen2]
  · simp [get_ai_response, assembledTaxPrompt, h1, hm, hgen2]

/-- Witness for C6: with the healthy stubs (whose retrieval returns no
items), the RAG block is the fallback and the response carries the
generated text with an empty evidence list. -/
theorem zero_results_fallback_witness :
    ragText (search_nigerian_laws demoStubs "What is VAT?").1 = fallbackBlock
  ∧ (get_ai_response demoStubs "What is VAT?" "tax").1 =
      .three "Answer." [] (get_economic_context demoStubs).1 :=
  ⟨(zero_results_fallback demoStubs "What is VAT?" "Answer." rfl rfl rfl rfl).2.1,
   (zero_results_fallback demoStubs "What is VAT?" "Answer." rfl rfl rfl rfl).2.2.2.1⟩

/-- Claim C7: on a well-formed vendor result, the content-extraction
cascade equals the spec's ordered chain of extractors (priority order
`extractive_answers`, `extractiveAnswers`, `snippets`,
`extractive_segments`, first field present wins), and the label equals
the spec's chain: `title` if present, else the final path segment of
`link`, else `"Official Document"`. -/
theorem extraction_priority_chain (d : DerivedData) (h : WfDerived d) :
    extractContent d = specContentChain d ∧ extractTitle d = specLabel d := by
  obtain ⟨t, lk, ea, eA, sn, es⟩ := d
  obtain ⟨ht, hl, -, -, -, -⟩ := h
  constructor
  · cases ea <;> cases eA <;> cases sn <;> cases es <;>
      simp [extractContent, specContentChain, contentExtractors]
  · cases t with
    | none =>
      cases lk with
      | none => simp [extractTitle, specLabel, truthyStr]
      | some l =>
        have hne : l ≠ "" := fun h' => hl (by simp [h'])
        simp [extractTitle, specLabel, truthyStr, hne]
    | some s =>
      have hs : s ≠ "" := fun h' => ht (by simp [h'])
      simp [extractTitle, specLabel, truthyStr, hs]

/-- Witness for C7: on the concrete record with only a link and a
snippets field, extraction equals the spec chain and the label equals
the spec label (the link's final path segment). -/
theorem extraction_priority_chain_witness :
    extractContent sampleSnippetRecord = specContentChain sampleSnippetRecord
  ∧ extractTitle sampleSnippetRecord = specLabel sampleSnippetRecord :=
  extraction_priority_chain sampleSnippetRecord (by decide)

/-- Retrieval depends only on the observable behavior of the
collaborators: bundles that answer identically search identically. -/
theorem search_nigerian_laws_congr (c c' : Collaborators) (q : String)
    (hcr : c.credentialsOk = c'.credentialsOk)
    (hs : ∀ a k, c.searchResp a k = c'.searchResp a k) :
    search_nigerian_laws c q = search_nigerian_laws c' q := by
  unfold search_nigerian_laws
  rw [hcr, hs]

/-- Analytics depends only on the observable behavior of the
collaborators. -/
theorem get_economic_context_congr (c c' : Collaborators)
    (hbq : c.bqOk = c'.bqOk) (hr : c.bqRows = c'.bqRows) :
    get_economic_context c = get_economic_context c' := by
  unfold get_economic_context
  rw [hbq, hr]

/-- Claim C9: the orchestration is deterministic — two runs of the
request pipeline against collaborator stubs with identical deterministic
responses produce identical results (in particular identical answer
text); prompt assembly introduces no randomness. -/
theorem deterministic_assembly (c c' : Collaborators) (r : QueryRequest)
    (hm : c.modelOk = c'.modelOk)
    (hcr : c.credentialsOk = c'.credentialsOk)
    (hbq : c.bqOk = c'.bqOk)
    (hs : ∀ a k, c.searchResp a k = c'.searchResp a k)
    (hr : c.bqRows = c'.bqRows)
    (hg : ∀ p, c.generate p = c'.generate p) :
    ask_endpoint c r = ask_endpoint c' r := by
  have hga : ∀ a m, get_ai_response c a m = get_ai_response c' a m := by
    intro a m
    unfold get_ai_response
    rw [hm, search_nigerian_laws_congr c c' a hcr hs,
        get_economic_context_congr c c' hbq hr]
    simp only [hg]
  unfold ask_endpoint
  simp only [hga]

/-- Witness for C9: submitting the same query against two identically
behaving stub bundles yields the identical response. -/
theorem deterministic_assembly_witness :
    ask_endpoint demoStubs ⟨some "What is the CIT rate?", none, "tax"⟩ =
      ask_endpoint rerunStubs ⟨some "What is the CIT rate?", none, "tax"⟩ :=
  deterministic_assembly demoStubs rerunStubs ⟨some "What is the CIT rate?", none, "tax"⟩
    rfl rfl rfl (fun _ _ => rfl) rfl (fun _ => rfl)

set_option maxRecDepth 40000

/-- Claim C10: the spec's worked example — for
`query = "What is the VAT deadline?"`, `mode = "tax"`, with the
retrieval stub returning the single item labelled `"Finance Act 2023"`
with content `"VAT due 21st"`, the response carries exactly that one
source, and the prompt handed to the generation stub contains both
`"VAT due 21st"` and `"21st"` verbatim. -/
theorem vat_deadline_example :
    (ask_endpoint vatStubs vatReq).1 =
      .ok "The VAT deadline is the 21st." [⟨"Finance Act 2023", "VAT due 21st"⟩] ""
  ∧ containsSub vatPrompt "VAT due 21st"
  ∧ containsSub vatPrompt "21st"
  ∧ CallEvent.generationCall vatPrompt ∈ (ask_endpoint vatStubs vatReq).2 := by
  refine ⟨by decide,
    ⟨promptPart1 ++ "" ++ promptPart2 ++ "OFFICIAL SOURCES:\nSOURCE 1 [Finance Act 2023]: ",
     "\n\n" ++ promptPart3 ++ "What is the VAT deadline?" ++ promptPart4, by decide⟩,
    ⟨promptPart1 ++ "" ++ promptPart2 ++
       "OFFICIAL SOURCES:\nSOURCE 1 [Finance Act 2023]: VAT due ",
     "\n\n" ++ promptPart3 ++ "What is the VAT deadline?" ++ promptPart4, by decide⟩,
    by decide⟩
